import Mathlib

/-!
Shallow embedding of `bloucobot.py`, a Sopel meeting-logger module, together
with theorems settling the frozen claims about it.

Modelling conventions:
* A Python per-channel dict is a `Rec` whose fields are `Option`-valued; an
  absent key is `none`.  A `KeyError` escaping a handler is modelled by the
  handler returning `some Exc.keyError` in its third component.
* `meetings_dict` is a `collections.defaultdict(dict)`; its `__getitem__`
  inserts an empty record for a missing channel, which `dictGet` reproduces.
  `meeting_vraus` is a plain dict (lookup of a missing key is a `KeyError`).
* Handlers return the new global state, an `Out` record collecting the
  `bot.say` calls, the items passed to `log_plain` (the source prefixes each
  with a wall-clock `[HH:MM:SS] ` stamp at write time), the items passed to
  `log_html_listitem`, and the raw strings written by the HTML start/end
  helpers, plus an `Option Exc` for an uncaught exception.  Mutations made
  before a raise persist in the returned state, as in the source.
* Fallible file appends and the outbound HTTP fetch are parameterised by
  oracles (`Bool` success flags, `fetch : String → Option String`); the
  host-supplied capabilities `tools.web.quote`, `find_title` and the MD5
  digest are abstract function parameters.
-/

namespace Bloucobot

/-- The fixed sentinel title used when a meeting is opened without a title
(`UNTITLED_MEETING` in the source). -/
def UNTITLED_MEETING : String := "Anônimo"

/-- One per-channel entry of `meetings_dict`.  The source stores a Python
dict whose keys may be absent; an absent key is modelled as `none`.
Field names follow the source keys: `head` is the owner, `puxam` the chair
list, `ows` the side-note queue of (submitter, text) pairs. -/
structure Rec where
  start : Option Nat := none
  title : Option String := none
  head : Option String := none
  puxam : Option (List String) := none
  running : Option Bool := none
  currentMissao : Option String := none
  ows : Option (List (String × String)) := none
deriving DecidableEq, Repr

/-- The record with every key absent: what `defaultdict(dict)` creates for a
missing channel, and what a close writes back. -/
def emptyRec : Rec := {}

/-- Python `str.lower()` restricted to ASCII case folding, applied
character-wise (all identities this module lowercases are ASCII nicks). -/
def pyLower (s : String) : String := String.mk (s.data.map Char.toLower)

/-- The process-wide `meetings_dict`, keyed by channel, in insertion order. -/
abbrev Store := List (String × Rec)

/-- Plain lookup of a channel in the store (no defaultdict insertion). -/
def lookupCh : Store → String → Option Rec
  | [], _ => none
  | (c, r) :: rest, ch => if c = ch then some r else lookupCh rest ch

/-- Update the channel's record in place, or append it at the end if absent,
matching Python dict assignment order semantics. -/
def setCh : Store → String → Rec → Store
  | [], ch, r => [(ch, r)]
  | (c, r0) :: rest, ch, r =>
      if c = ch then (ch, r) :: rest else (c, r0) :: setCh rest ch r

/-- `meetings_dict[channel]` with `defaultdict(dict)` semantics: a missing
channel is inserted as an empty record and that record is returned. -/
def dictGet (s : Store) (ch : String) : Rec × Store :=
  match lookupCh s ch with
  | some r => (r, s)
  | none => (emptyRec, s ++ [(ch, emptyRec)])

/-- `is_meeting_running(channel)`: returns `meetings_dict[channel]["running"]`,
catching the `KeyError` of a missing key as `False`.  The defaultdict lookup
may insert an empty record, hence the returned store. -/
def is_meeting_running (ch : String) (s : Store) : Bool × Store :=
  let p := dictGet s ch
  (p.1.running.getD false, p.2)

/-- `is_chair(nick, channel)`: compares `nick.lower()` against the stored
`head` and membership in `puxam`; a `KeyError` from either missing key is
caught as `False`.  Evaluation order follows the source: the `head` access
happens first and short-circuits the `puxam` access on a match. -/
def is_chair (nick ch : String) (s : Store) : Bool × Store :=
  let p := dictGet s ch
  match p.1.head with
  | none => (false, p.2)
  | some h =>
      if pyLower nick = h then (true, p.2)
      else
        match p.1.puxam with
        | none => (false, p.2)
        | some l => (decide (pyLower nick ∈ l), p.2)

theorem lookupCh_setCh_self (s : Store) (ch : String) (r : Rec) :
    lookupCh (setCh s ch r) ch = some r := by
  induction s with
  | nil => simp [setCh, lookupCh]
  | cons p rest ih =>
      by_cases h : p.1 = ch
      · simp [setCh, h, lookupCh]
      · simp [setCh, h, lookupCh, ih]

theorem lookupCh_setCh_other (s : Store) (ch ch2 : String) (r : Rec)
    (h : ch ≠ ch2) : lookupCh (setCh s ch r) ch2 = lookupCh s ch2 := by
  induction s with
  | nil => simp [setCh, lookupCh, h]
  | cons p rest ih =>
      by_cases hp : p.1 = ch
      · simp [setCh, hp, lookupCh, h]
      · simp [setCh, hp, lookupCh, ih]

theorem lookupCh_append_single (s : Store) (ch : String) (r : Rec)
    (h : lookupCh s ch = none) : lookupCh (s ++ [(ch, r)]) ch = some r := by
  induction s with
  | nil => simp [lookupCh]
  | cons p rest ih =>
      by_cases hp : p.1 = ch
      · simp [lookupCh, hp] at h
      · simp [lookupCh, hp] at h ⊢
        exact ih h

theorem dictGet_of_lookup (s : Store) (ch : String) (r : Rec)
    (h : lookupCh s ch = some r) : dictGet s ch = (r, s) := by
  simp [dictGet, h]

theorem dictGet_of_missing (s : Store) (ch : String)
    (h : lookupCh s ch = none) : dictGet s ch = (emptyRec, s ++ [(ch, emptyRec)]) := by
  simp [dictGet, h]

/-- Characterisation of `is_meeting_running` on a present channel. -/
theorem is_meeting_running_of_lookup (s : Store) (ch : String) (r : Rec)
    (h : lookupCh s ch = some r) :
    is_meeting_running ch s = (r.running.getD false, s) := by
  simp [is_meeting_running, dictGet_of_lookup s ch r h]

/-- Claim C4, counterexample.  The claim said evaluating the meeting-running
query adds no entry for a never-initialized channel; but `meetings_dict` is a
`defaultdict`, so the query on the empty store inserts an empty record for
the queried channel. -/
theorem c4_counterexample :
    lookupCh ([] : Store) "#a" = none ∧
      lookupCh (is_meeting_running "#a" ([] : Store)).2 "#a" = some emptyRec := by
  constructor
  · rfl
  · rfl

/-- Claim C4, amended: evaluating the meeting-running query or the
chair-or-owner query never modifies an existing entry (on a present channel
the store is returned unchanged); on a never-initialized channel each query
appends exactly one entry, the empty record, leaving all other entries
untouched. -/
theorem c4_claim (ch nick : String) (s : Store) :
    ((lookupCh s ch).isSome → (is_meeting_running ch s).2 = s ∧
        (is_chair nick ch s).2 = s) ∧
      (lookupCh s ch = none → (is_meeting_running ch s).2 = s ++ [(ch, emptyRec)] ∧
        (is_chair nick ch s).2 = s ++ [(ch, emptyRec)]) := by
  constructor
  · intro h
    obtain ⟨r, hr⟩ := Option.isSome_iff_exists.mp h
    constructor
    · simp [is_meeting_running, dictGet_of_lookup s ch r hr]
    · simp only [is_chair, dictGet_of_lookup s ch r hr]
      cases r.head with
      | none => rfl
      | some h0 =>
          by_cases he : pyLower nick = h0
          · simp [he]
          · cases r.puxam <;> simp [he]
  · intro h
    constructor
    · simp [is_meeting_running, dictGet_of_missing s ch h]
    · simp only [is_chair, dictGet_of_missing s ch h]
      rfl

/-- Claim C4, witness for the amended theorem at a concrete store. -/
theorem c4_witness :
    (is_meeting_running "#a" [("#a", emptyRec)]).2 = [("#a", emptyRec)] ∧
      (is_chair "x" "#b" ([] : Store)).2 = [("#b", emptyRec)] := by
  refine ⟨((c4_claim "#a" "x" [("#a", emptyRec)]).1 (by decide)).1, ?_⟩
  exact ((c4_claim "#b" "x" []).2 (by decide)).2

/-- Claim C3, counterexample.  The claim said the chair-or-owner query
returns false whenever the record is missing any required key; but for a
record holding only `head := "alice"` (no `puxam` key), the query on
identity "Alice" short-circuits on the owner comparison and returns true. -/
theorem c3_counterexample :
    (is_chair "Alice" "#c" [("#c", { head := some "alice" })]).1 = true := by
  decide

/-- Claim C3, amended: the chair-or-owner query never raises (the source
catches the `KeyError` of any missing key, which the model renders as the
explicit false branches of a total function); it returns false when the
channel has no record or the record lacks the owner key, and also when the
owner key is present but differs from the identity and the chairs key is
missing; when the owner key is present and case-insensitively equals the
identity it returns true even if the chairs key is missing. -/
theorem c3_claim (nick ch : String) (s : Store) :
    ((match lookupCh s ch with
        | none => true
        | some r => r.head.isNone) = true → (is_chair nick ch s).1 = false) ∧
      (∀ r h, lookupCh s ch = some r → r.head = some h → r.puxam = none →
        pyLower nick ≠ h → (is_chair nick ch s).1 = false) ∧
      (∀ r h, lookupCh s ch = some r → r.head = some h → pyLower nick = h →
        (is_chair nick ch s).1 = true) := by
  refine ⟨?_, ?_, ?_⟩
  · intro hmiss
    cases hl : lookupCh s ch with
    | none => simp [is_chair, dictGet_of_missing s ch hl, emptyRec]
    | some r =>
        rw [hl] at hmiss
        simp only [is_chair, dictGet_of_lookup s ch r hl]
        cases hh : r.head with
        | none => rfl
        | some h0 => simp [hh] at hmiss
  · intro r h hl hh hp hne
    simp [is_chair, dictGet_of_lookup s ch r hl, hh, hne, hp]
  · intro r h hl hh he
    simp [is_chair, dictGet_of_lookup s ch r hl, hh, he]

/-- Claim C3, witness for the amended theorem at concrete inputs. -/
theorem c3_witness :
    (is_chair "Alice" "#z" ([] : Store)).1 = false ∧
      (is_chair "Bob" "#c" [("#c", { head := some "alice" })]).1 = false ∧
      (is_chair "ALICE" "#c" [("#c", { head := some "alice" })]).1 = true := by
  refine ⟨(c3_claim "Alice" "#z" []).1 (by decide), ?_, ?_⟩
  · exact (c3_claim "Bob" "#c" [("#c", { head := some "alice" })]).2.1
      { head := some "alice" } "alice" (by decide) rfl rfl (by decide)
  · exact (c3_claim "ALICE" "#c" [("#c", { head := some "alice" })]).2.2
      { head := some "alice" } "alice" (by decide) rfl (by decide)

/-! ### Filename derivation (`figure_logfile_name`) -/

/-- Two-digit zero padding, as produced by `strftime` numeric fields. -/
def pad2 (n : Nat) : String := if n < 10 then "0" ++ toString n else toString n

/-- Four-digit zero padding for the year field. -/
def pad4 (n : Nat) : String :=
  if n < 10 then "000" ++ toString n
  else if n < 100 then "00" ++ toString n
  else if n < 1000 then "0" ++ toString n
  else toString n

/-- Proleptic Gregorian calendar date for a day count since 1970-01-01
(what `time.gmtime` computes for the date fields). -/
def civilFromDays (z0 : Nat) : Nat × Nat × Nat :=
  let z := z0 + 719468
  let era := z / 146097
  let doe := z % 146097
  let yoe := (doe - doe / 1460 + doe / 36524 - doe / 146097) / 365
  let y := yoe + era * 400
  let doy := doe - (365 * yoe + yoe / 4 - yoe / 100)
  let mp := (5 * doy + 2) / 153
  let d := doy - (153 * mp + 2) / 5 + 1
  let m := if mp < 10 then mp + 3 else mp - 9
  (if m ≤ 2 then y + 1 else y, m, d)

/-- `time.strftime("%Y-%m-%d-%H:%M", time.gmtime(t))` (the separator between
date and time is the `sep` argument, `"-"` in `figure_logfile_name` and
`" "` in the HTML headline). -/
def strftimeYMDHMSep (t : Nat) (sep : String) : String :=
  let dd := civilFromDays (t / 86400)
  let s := t % 86400
  pad4 dd.1 ++ "-" ++ pad2 dd.2.1 ++ "-" ++ pad2 dd.2.2 ++ sep ++
    pad2 (s / 3600) ++ ":" ++ pad2 (s % 3600 / 60)

/-- `time.strftime("%H:%M:%S", time.gmtime())` at wall-clock second `t`. -/
def strftimeHMS (t : Nat) : String :=
  let s := t % 86400
  pad2 (s / 3600) ++ ":" ++ pad2 (s % 3600 / 60) ++ ":" ++ pad2 (s % 60)

/-- The characters of Python `string.punctuation`. -/
def pythonPunct : List Char :=
  "!\"#$%&\x27()*+,-./:;<=>?@[\\]^_\x60\x7b|\x7d~".data

/-- The characters of Python `string.whitespace`. -/
def pythonWhitespace : List Char := " \t\n\r\x0b\x0c".data

/-- One pass of `name.replace(character, "-")` for a single character. -/
def replaceOne (s : List Char) (c : Char) : List Char :=
  s.map (fun x => if x = c then '-' else x)

/-- The source's sluggifying loop: sequentially replace each character of
`punctuation + whitespace` by a hyphen. -/
def slugApply (s : List Char) : List Char :=
  (pythonPunct ++ pythonWhitespace).foldl replaceOne s

/-- Python `str.strip("-")`: drop leading and trailing hyphens. -/
def stripDashes (l : List Char) : List Char :=
  ((l.dropWhile (fun c => c = '-')).reverse.dropWhile (fun c => c = '-')).reverse

/-- `figure_logfile_name(channel)`: derive the extensionless log file base
name from the channel's meeting title and start time.  A missing `title` or
`start` key is an uncaught `KeyError`, modelled as `none`; the defaultdict
access may insert an empty record, hence the returned store. -/
def figure_logfile_name (ch : String) (s : Store) : Option String × Store :=
  let p := dictGet s ch
  match p.1.title with
  | none => (none, p.2)
  | some t =>
      let name0 := if t = UNTITLED_MEETING then "untitled" else t
      let name := String.mk (stripDashes (slugApply name0.data))
      match p.1.start with
      | none => (none, p.2)
      | some st => (some (strftimeYMDHMSep st "-" ++ "_" ++ name), p.2)

/-- The slug as the claim words it: the literal word "untitled" for the
sentinel title, otherwise the title with every punctuation and whitespace
character replaced by a hyphen and leading/trailing hyphens stripped. -/
def specSlug (t : String) : String :=
  if t = UNTITLED_MEETING then "untitled"
  else
    String.mk (stripDashes (t.data.map
      (fun c => if c ∈ pythonPunct ++ pythonWhitespace then '-' else c)))

/-- The sequential single-character replacement loop of the source equals the
one-pass character map of the claim's wording. -/
theorem slugApply_eq_map (cs : List Char) (s : List Char) :
    cs.foldl replaceOne s = s.map (fun c => if c ∈ cs then '-' else c) := by
  induction cs generalizing s with
  | nil => simp [replaceOne]
  | cons c cs ih =>
      rw [List.foldl_cons, ih, replaceOne, List.map_map]
      refine List.map_congr_left ?_
      intro x _
      by_cases hx : x = c
      · subst hx
        by_cases hmem : x ∈ cs <;> simp [hmem]
      · by_cases hmem : x ∈ cs <;> simp [hx, hmem]

set_option maxRecDepth 10000 in
/-- Replacing and stripping leaves the literal "untitled" unchanged. -/
theorem slug_untitled : String.mk (stripDashes (slugApply "untitled".data)) = "untitled" := by
  decide

/-- The slug computed by the source (sequential replaces, then strip) equals
the slug as the claim words it. -/
theorem sourceSlug_eq_specSlug (t : String) :
    String.mk (stripDashes
        (slugApply (if t = UNTITLED_MEETING then "untitled" else t).data)) =
      specSlug t := by
  by_cases hu : t = UNTITLED_MEETING
  · rw [if_pos hu, specSlug, if_pos hu]
    exact slug_untitled
  · rw [if_neg hu, specSlug, if_neg hu, slugApply, slugApply_eq_map]

set_option maxRecDepth 10000 in
set_option maxHeartbeats 1000000 in
/-- Claim C5: the derived log filename base is the start time formatted as
YYYY-MM-DD-HH:MM in UTC, an underscore, and the slug (the literal word
"untitled" for the sentinel title, otherwise the title with every
punctuation/whitespace character replaced by a hyphen and leading/trailing
hyphens stripped); in particular, title "Roll Call!" at start time
2024-01-02T03:04:00Z (epoch 1704164640) yields "2024-01-02-03:04_Roll-Call". -/
theorem c5_claim (s : Store) (ch t : String) (st : Nat) (r : Rec)
    (hr : lookupCh s ch = some r) (hti : r.title = some t)
    (hst : r.start = some st) :
    (figure_logfile_name ch s).1 = some (strftimeYMDHMSep st "-" ++ "_" ++ specSlug t) ∧
      strftimeYMDHMSep 1704164640 "-" ++ "_" ++ specSlug "Roll Call!" =
        "2024-01-02-03:04_Roll-Call" := by
  constructor
  · simp only [figure_logfile_name, dictGet_of_lookup s ch r hr, hti, hst]
    rw [sourceSlug_eq_specSlug]
  · decide

set_option maxRecDepth 10000 in
set_option maxHeartbeats 1000000 in
/-- Claim C5, witness: the theorem applied to a concrete one-meeting store
holding title "Roll Call!" and the example start time. -/
theorem c5_witness :
    (figure_logfile_name "#c"
        [("#c", { title := some "Roll Call!", start := some 1704164640 })]).1 =
      some (strftimeYMDHMSep 1704164640 "-" ++ "_" ++ specSlug "Roll Call!") ∧
      strftimeYMDHMSep 1704164640 "-" ++ "_" ++ specSlug "Roll Call!" =
        "2024-01-02-03:04_Roll-Call" :=
  c5_claim [("#c", { title := some "Roll Call!", start := some 1704164640 })]
    "#c" "Roll Call!" 1704164640
    { title := some "Roll Call!", start := some 1704164640 } (by decide) rfl rfl

/-! ### Global state and handler outputs -/

/-- Uncaught Python exceptions escaping a handler. -/
inductive Exc
  | keyError
  | ioError
  | netError
deriving DecidableEq, Repr

/-- What a handler emits: the `bot.say` calls (message, optional explicit
recipient), the items passed to `log_plain` (the source prefixes a wall-clock
`[HH:MM:SS] ` stamp and appends CRLF at write time), the items passed to
`log_html_listitem`, and the raw strings written by the HTML start/end
helpers. -/
structure Out where
  said : List (String × Option String) := []
  plain : List String := []
  htmlItems : List String := []
  htmlRaw : List String := []
deriving DecidableEq, Repr

/-- `sopel.formatting.bold`: wrap in the IRC bold control character. -/
def bold (s : String) : String := "\x02" ++ s ++ "\x02"

/-- The `meeting_vraus` plain dict: channel to its recorded action items.
Unlike `meetings_dict` this is not a defaultdict. -/
abbrev VrauTable := List (String × List String)

def lookupVraus : VrauTable → String → Option (List String)
  | [], _ => none
  | (c, l) :: rest, ch => if c = ch then some l else lookupVraus rest ch

def setVraus : VrauTable → String → List String → VrauTable
  | [], ch, l => [(ch, l)]
  | (c, l0) :: rest, ch, l =>
      if c = ch then (ch, l) :: rest else (c, l0) :: setVraus rest ch l

def delVraus : VrauTable → String → VrauTable
  | [], _ => []
  | (c, l) :: rest, ch => if c = ch then rest else (c, l) :: delVraus rest ch

/-- Process-wide mutable state: `meetings_dict`, `meeting_vraus`, and the two
module-level path/URL variables set at meeting open. -/
structure GState where
  meetings : Store := []
  vraus : VrauTable := []
  logPath : String := ""
  logBaseurl : String := ""
deriving DecidableEq, Repr

/-- Python `str.startswith`, character-wise (second argument the pattern). -/
def pyStartsWithAux : List Char → List Char → Bool
  | _, [] => true
  | [], _ :: _ => false
  | x :: xs, y :: ys => x = y && pyStartsWithAux xs ys

/-- Python `s.startswith(pat)`. -/
def pyStartsWith (s pat : String) : Bool := pyStartsWithAux s.data pat.data

/-- Python `s.endswith(pat)`. -/
def pyEndsWith (s pat : String) : Bool :=
  pyStartsWithAux s.data.reverse pat.data.reverse

/-- Python `s.split(" ")`: split at every single space, keeping empty
pieces. -/
def pySplitSpaceAux : List Char → List Char → List String
  | [], acc => [String.mk acc.reverse]
  | x :: xs, acc =>
      if x = ' ' then String.mk acc.reverse :: pySplitSpaceAux xs []
      else pySplitSpaceAux xs (x :: acc)

/-- Python `s.split(" ")`. -/
def pySplitSpace (s : String) : List String := pySplitSpaceAux s.data []

/-- Python `s.replace(c, repl)` for a single-character pattern. -/
def pyReplaceChar (s : String) (c : Char) (repl : String) : String :=
  String.mk (s.data.foldr
    (fun x acc => if x = c then repl.data ++ acc else x :: acc) [])

/-! ### Command handlers -/

/-- The opening banner announced by `.vemblouco`, interpolating the host's
command prefix. -/
def vembloucoBanner (pfx : String) : String :=
  bold "O Blouco é aqui!" ++ " mande " ++ pfx ++ "vrau, " ++ pfx ++ "blz, " ++
    pfx ++ "seliga, " ++ pfx ++ "link, " ++ pfx ++ "puxam, " ++ pfx ++
    "missão, and " ++ pfx ++ "ows para controlar o Blouco. Para partir, mande " ++
    pfx ++ "vaiblouco"

/-- The side-note instruction line announced by `.vemblouco`. -/
def vembloucoOwHint (pfx sender : String) : String :=
  "Quem não está puxando pode participar me enviando uma DM com \x60" ++ pfx ++
    "ow " ++ sender ++ "\x60 seguido de seu comentário."

/-- The title stored at open: the argument, or the untitled sentinel when
the argument is Python-falsy (absent or empty). -/
def titleOf : Option String → String
  | none => UNTITLED_MEETING
  | some t => if t = "" then UNTITLED_MEETING else t

/-- The `.vemblouco` open-meeting handler.  `group2` is the trigger's full
argument text (`none` or `""` is Python-falsy).  `cfgPath`/`cfgBaseurl` are
the persisted configuration values re-read at open time, `pfx` the host's
command prefix.  `dirExists` models `os.path.isdir` on the channel log
directory, `mkdirOk` the success of `os.makedirs`, and `plainOk`/`htmlStartOk`
the success of the two initial log appends. -/
def vemblouco (now : Nat) (nick sender : String) (group2 : Option String)
    (cfgPath cfgBaseurl pfx : String)
    (dirExists mkdirOk plainOk htmlStartOk : Bool) (g : GState) :
    GState × Out × Option Exc :=
  let q := is_meeting_running sender g.meetings
  let g := { g with meetings := q.2 }
  if q.1 then
    (g, { said := [("Já tem um Blouco ativo!", none)] }, none)
  else
    let p := dictGet g.meetings sender
    let titleVal := titleOf group2
    let r := { p.1 with
                 start := some now,
                 title := some titleVal,
                 head := some (pyLower nick),
                 running := some true,
                 ows := some ([] : List (String × String)) }
    let g := { g with meetings := setCh p.2 sender r }
    let path := if pyEndsWith cfgPath "/" then cfgPath else cfgPath ++ "/"
    let burl := if pyEndsWith cfgBaseurl "/" then cfgBaseurl else cfgBaseurl ++ "/"
    let g := { g with logPath := path, logBaseurl := burl }
    if !dirExists && !mkdirOk then
      ({ g with meetings := setCh g.meetings sender emptyRec },
        { said := [("Blouco não veio: Não consegui criar o diretório de log para este canal", none)] },
        some Exc.ioError)
    else
      if !plainOk then (g, {}, some Exc.ioError)
      else
        let pl := ["Blouco trazido pela Porta-estandarte " ++ pyLower nick]
        if !htmlStartOk then (g, { plain := pl }, some Exc.ioError)
        else
          let tstr := strftimeYMDHMSep now " "
          let htitle := titleVal ++ " at " ++ sender ++ ", " ++ tstr
          let hraw :=
            ["<!doctype html><html><head><meta charset=\x27utf-8\x27>\n<title>" ++
               htitle ++ "</title>\n</head><body>\n<h1>" ++ htitle ++ "</h1>\n",
             "<h4>Meeting started by " ++ pyLower nick ++ "</h4><ul>\n"]
          let g := { g with vraus := setVraus g.vraus sender [] }
          (g,
           { said := [(vembloucoBanner pfx, none), (vembloucoOwHint pfx sender, none)],
             plain := pl,
             htmlRaw := hraw },
           none)

/-- The `.vaiblouco` close-meeting handler.  `htmlEndOk`/`plainOk` model the
success of `log_html_end` and the final `log_plain`; `quote` is the
host-supplied URL percent-encoder; `fetch` models `requests.get` on the
published plain-text log URL (`none` = network failure); `md5hex` the hex
MD5 digest of the fetched body. -/
def vaiblouco (now : Nat) (nick sender : String) (htmlEndOk plainOk : Bool)
    (quote : String → String) (fetch : String → Option String)
    (md5hex : String → String) (g : GState) : GState × Out × Option Exc :=
  let q := is_meeting_running sender g.meetings
  let g := { g with meetings := q.2 }
  if !q.1 then
    (g, { said := [("Não tem Blouco aqui", none)] }, none)
  else
    let c := is_chair nick sender g.meetings
    let g := { g with meetings := c.2 }
    if !c.1 then
      (g, { said := [("Somente Porta-estandarte e Puxadoras podem fazer isso", none)] }, none)
    else
      let p := dictGet g.meetings sender
      let g := { g with meetings := p.2 }
      match p.1.start with
      | none => (g, {}, some Exc.keyError)
      | some st =>
          let mins := (now - st) / 60
          let say1 := (bold "Blouco indo embora!" ++ " Ele ficou " ++
            toString mins ++ " minutos aqui", (none : Option String))
          let fn := figure_logfile_name sender g.meetings
          let g := { g with meetings := fn.2 }
          match fn.1 with
          | none => (g, { said := [say1] }, some Exc.keyError)
          | some fname =>
              if !htmlEndOk then (g, { said := [say1] }, some Exc.ioError)
              else
                let plainlogUrl := g.logBaseurl ++ quote (sender ++ "/" ++ fname ++ ".txt")
                let hraw := ["</ul>\n<h4>Meeting ended at " ++ strftimeHMS now ++ " UTC</h4>\n",
                             "<a href=\"" ++ plainlogUrl ++ "\">Full log</a>",
                             "\n</body>\n</html>\n"]
                let htmllogUrl := g.logBaseurl ++ quote (sender ++ "/" ++ fname ++ ".html")
                let fulllogUrl := g.logBaseurl ++ quote (sender ++ "/" ++ fname ++ ".txt")
                if !plainOk then (g, { said := [say1], htmlRaw := hraw }, some Exc.ioError)
                else
                  let pl := ["O Blouco saiu às " ++ nick ++ ". Tempo aqui: " ++
                    toString mins ++ " minutos"]
                  let said := [say1, ("Registro principal: " ++ htmllogUrl, none),
                               ("Registro completo: " ++ fulllogUrl, none)]
                  let g := { g with meetings := setCh g.meetings sender emptyRec }
                  match fetch fulllogUrl with
                  | none => (g, { said := said, plain := pl, htmlRaw := hraw }, some Exc.netError)
                  | some body =>
                      let said := said ++ [("Segue o Blouco! " ++ md5hex body, none)]
                      match lookupVraus g.vraus sender with
                      | none => (g, { said := said, plain := pl, htmlRaw := hraw }, some Exc.keyError)
                      | some _ =>
                          ({ g with vraus := delVraus g.vraus sender },
                           { said := said, plain := pl, htmlRaw := hraw }, none)

/-- The `.puxam` set-chairs handler.  Only the stored `head` may set the
chair list; the check compares `trigger.nick.lower()` directly against
`head` (a missing `head` key is an uncaught `KeyError`). -/
def puxam (nick sender : String) (group2 : Option String) (pfx : String)
    (plainOk htmlOk : Bool) (g : GState) : GState × Out × Option Exc :=
  let q := is_meeting_running sender g.meetings
  let g := { g with meetings := q.2 }
  if !q.1 then
    (g, { said := [("Não tem Blouco aqui", none)] }, none)
  else
    let argEmpty := match group2 with | none => true | some t => t = ""
    if argEmpty then
      (g,
       { said := [("Quem vai puxar? Tente \x60" ++ pfx ++ "puxam Fulana Beltrana_18 C1cl4n4\x60", none)] },
       none)
    else
      let arg := group2.getD ""
      let p := dictGet g.meetings sender
      let g := { g with meetings := p.2 }
      match p.1.head with
      | none => (g, {}, some Exc.keyError)
      | some h =>
          if pyLower nick = h then
            let lowered := pyLower arg
            let r := { p.1 with puxam := some (pySplitSpace lowered) }
            let g := { g with meetings := setCh g.meetings sender r }
            let readable := pyReplaceChar lowered ' ' ", "
            if !plainOk then (g, {}, some Exc.ioError)
            else
              let pl := ["Puxadoras: " ++ readable]
              if !htmlOk then (g, { plain := pl }, some Exc.ioError)
              else
                (g,
                 { said := [(bold "Puxadoras:" ++ " " ++ readable, none)],
                   plain := pl,
                   htmlItems := ["<span style=\x27font-weight: bold\x27>Puxadoras:</span> " ++ readable] },
                 none)
          else
            (g, { said := [("Somente a Porta-estandarte pode consagrar Puxadoras", none)] }, none)

/-- The `.vrau` record-action-item handler.  Appends the raw argument to
`meeting_vraus[sender]` (a plain-dict access: a missing channel entry is an
uncaught `KeyError`, after the log writes). -/
def meetingvrau (nick sender : String) (group2 : Option String) (pfx : String)
    (plainOk htmlOk : Bool) (g : GState) : GState × Out × Option Exc :=
  let q := is_meeting_running sender g.meetings
  let g := { g with meetings := q.2 }
  if !q.1 then
    (g, { said := [("Não tem Blouco aqui", none)] }, none)
  else
    let argEmpty := match group2 with | none => true | some t => t = ""
    if argEmpty then
      (g, { said := [("Tente \x60" ++ pfx ++ "vrau Fulanin vai fazer tal coisa\x60", none)] }, none)
    else
      let c := is_chair nick sender g.meetings
      let g := { g with meetings := c.2 }
      if !c.1 then
        (g, { said := [("Somente a Porta-estandarte e as Puxadoras podem fazer isso", none)] }, none)
      else
        let arg := group2.getD ""
        if !plainOk then (g, {}, some Exc.ioError)
        else
          let pl := ["vrau: " ++ arg]
          if !htmlOk then (g, { plain := pl }, some Exc.ioError)
          else
            let hi := ["<span style=\x27font-weight: bold\x27>vrau: </span>" ++ arg]
            match lookupVraus g.vraus sender with
            | none => (g, { plain := pl, htmlItems := hi }, some Exc.keyError)
            | some l =>
                ({ g with vraus := setVraus g.vraus sender (l ++ [arg]) },
                 { said := [(bold "vrau:" ++ " " ++ arg, none)],
                   plain := pl,
                   htmlItems := hi },
                 none)

/-- The `.listvraus` handler: replays `meeting_vraus[sender]` in-channel, one
bolded reply per recorded item, without any authorization check. -/
def listvraus (sender : String) (g : GState) : GState × Out × Option Exc :=
  let q := is_meeting_running sender g.meetings
  let g := { g with meetings := q.2 }
  if !q.1 then
    (g, { said := [("Não tem Blouco aqui", none)] }, none)
  else
    match lookupVraus g.vraus sender with
    | none => (g, {}, some Exc.keyError)
    | some l =>
        (g, { said := l.map (fun v => (bold "vrau:" ++ " " ++ v, none)) }, none)

/-- The `.link` record-link handler.  `find_title` models the external page
title resolution (`none` = any exception, degraded to an empty title). -/
def meetinglink (nick sender : String) (group2 : Option String) (pfx : String)
    (find_title : String → Option String) (plainOk htmlOk : Bool)
    (g : GState) : GState × Out × Option Exc :=
  let q := is_meeting_running sender g.meetings
  let g := { g with meetings := q.2 }
  if !q.1 then
    (g, { said := [("Não tem Blouco aqui", none)] }, none)
  else
    let argEmpty := match group2 with | none => true | some t => t = ""
    if argEmpty then
      (g, { said := [("Tente \x60" ++ pfx ++ "link https://algum-website.exemplo/\x60", none)] }, none)
    else
      let c := is_chair nick sender g.meetings
      let g := { g with meetings := c.2 }
      if !c.1 then
        (g, { said := [("Somente a Porta-estandarte e as Puxadoras podem fazer isso", none)] }, none)
      else
        let link0 := group2.getD ""
        let link := if pyStartsWith link0 "http" then link0 else "http://" ++ link0
        let title := (find_title link).getD ""
        if !plainOk then (g, {}, some Exc.ioError)
        else
          let pl := ["LINK: " ++ link ++ " [" ++ title ++ "]"]
          if !htmlOk then (g, { plain := pl }, some Exc.ioError)
          else
            (g,
             { said := [(bold "LINK:" ++ " " ++ link, none)],
               plain := pl,
               htmlItems := ["<a href=\"" ++ link ++ "\">" ++ title ++ "</a>"] },
             none)

/-- The `.ow` submit-side-note handler.  `group2` is the full argument text,
`group3` the first whitespace-separated token (the host's tokenization).  In
a private message `sender` is the submitter's own nick.  Note the source
checks `is_meeting_running(trigger.sender)` and appends the full `group2`
text: the named target channel token is never consulted. -/
def take_ow (nick sender : String) (group2 group3 : Option String)
    (pfx : String) (g : GState) : GState × Out × Option Exc :=
  let g3empty := match group3 with | none => true | some t => t = ""
  if g3empty then
    (g, { said := [("Uso: " ++ pfx ++ "ow <comentário>", none)] }, none)
  else
    let message := group2.getD ""
    let q := is_meeting_running sender g.meetings
    let g := { g with meetings := q.2 }
    if !q.1 then
      (g, { said := [("Não tem Blouco aqui.", none)] }, none)
    else
      let p := dictGet g.meetings sender
      let g := { g with meetings := p.2 }
      match p.1.ows with
      | none => (g, {}, some Exc.keyError)
      | some l =>
          let r := { p.1 with ows := some (l ++ [(nick, message)]) }
          let g := { g with meetings := setCh g.meetings sender r }
          let ack := ("Seu Ow foi gravado. Vai aparecer quando as Puxadoras me pedirem para mostrar os Ows.",
            (none : Option String))
          match p.1.head with
          | none => (g, { said := [ack] }, some Exc.keyError)
          | some h => (g, { said := [ack, ("Ow gravado", some h)] }, none)

/-- The `.ows` show-side-notes handler: drain-on-read display of the stored
side notes.  `botNick` is the bot's own nick (the plain log renders the
lines as spoken by the bot). -/
def show_ows (nick sender botNick : String) (plainOk : Bool) (g : GState) :
    GState × Out × Option Exc :=
  let q := is_meeting_running sender g.meetings
  let g := { g with meetings := q.2 }
  if !q.1 then (g, {}, none)
  else
    let c := is_chair nick sender g.meetings
    let g := { g with meetings := c.2 }
    if !c.1 then
      (g, { said := [("Somente Porta-estandarte e Puxadoras podem fazer isso", none)] }, none)
    else
      let p := dictGet g.meetings sender
      let g := { g with meetings := p.2 }
      match p.1.ows with
      | none => (g, {}, some Exc.keyError)
      | some ows =>
          if ows.isEmpty then (g, { said := [("Não tem Ows", none)] }, none)
          else
            let headerSay := ("Lista de Ows:", (none : Option String))
            if !plainOk then (g, { said := [headerSay] }, some Exc.ioError)
            else
              let said := headerSay ::
                ows.map (fun o => ("<" ++ o.1 ++ "> " ++ o.2, (none : Option String)))
              let pl := ("<" ++ botNick ++ "> Lista de Ows:") ::
                ows.map (fun o => "<" ++ botNick ++ "> " ++ ("<" ++ o.1 ++ "> " ++ o.2))
              let r := { p.1 with ows := some ([] : List (String × String)) }
              ({ g with meetings := setCh g.meetings sender r },
               { said := said, plain := pl }, none)

/-! ### Characterisation lemmas for the queries on a present channel -/

/-- The chair-or-owner test as a function of the record alone. -/
def chairBool (nick : String) (r : Rec) : Bool :=
  match r.head with
  | none => false
  | some hd =>
      if pyLower nick = hd then true
      else
        match r.puxam with
        | none => false
        | some l => decide (pyLower nick ∈ l)

theorem is_chair_of_lookup (s : Store) (nick ch : String) (r : Rec)
    (h : lookupCh s ch = some r) : is_chair nick ch s = (chairBool nick r, s) := by
  simp only [is_chair, chairBool, dictGet_of_lookup s ch r h]
  cases r.head with
  | none => rfl
  | some h0 =>
      by_cases he : pyLower nick = h0
      · simp [he]
      · cases r.puxam <;> simp [he]

theorem lookupVraus_setVraus_self (v : VrauTable) (ch : String) (l : List String) :
    lookupVraus (setVraus v ch l) ch = some l := by
  induction v with
  | nil => simp [setVraus, lookupVraus]
  | cons p rest ih =>
      by_cases h : p.1 = ch
      · simp [setVraus, h, lookupVraus]
      · simp [setVraus, h, lookupVraus, ih]

/-- `figure_logfile_name` on a present channel with title and start set. -/
theorem figure_logfile_name_of_lookup (s : Store) (ch : String) (r : Rec)
    (t : String) (st : Nat) (hr : lookupCh s ch = some r)
    (hti : r.title = some t) (hst : r.start = some st) :
    figure_logfile_name ch s =
      (some (strftimeYMDHMSep st "-" ++ "_" ++
        String.mk (stripDashes
          (slugApply (if t = UNTITLED_MEETING then "untitled" else t).data))), s) := by
  simp only [figure_logfile_name, dictGet_of_lookup s ch r hr, hti, hst]

/-! ### Concrete fixtures shared by the closed theorems -/

/-- A well-formed record of a running meeting: what a successful open
followed by a set-chairs leaves in `meetings_dict`. -/
def rFix : Rec :=
  { start := some 60, title := some "T", head := some "alice",
    puxam := some ["bob"], running := some true, ows := some [] }

/-- Fixture global state: one running meeting in channel "#c". -/
def gFix : GState :=
  { meetings := [("#c", rFix)], vraus := [("#c", ["old"])],
    logPath := "/logs/", logBaseurl := "http://x/" }

/-! ### Claim C6 -/

/-- Claim C6: issuing the open-meeting command in a channel with an active
meeting produces only the "already running" reply and leaves the global
state — in particular the channel's title, owner and start time — completely
unchanged, whatever the argument, configuration and oracle flags. -/
theorem c6_claim (now : Nat) (nick sender : String) (group2 : Option String)
    (cfgPath cfgBaseurl pfx : String)
    (dirExists mkdirOk plainOk htmlStartOk : Bool) (g : GState) (r : Rec)
    (hr : lookupCh g.meetings sender = some r) (hrun : r.running = some true) :
    vemblouco now nick sender group2 cfgPath cfgBaseurl pfx dirExists mkdirOk
        plainOk htmlStartOk g =
      (g, { said := [("Já tem um Blouco ativo!", none)] }, none) := by
  have h1 : is_meeting_running sender g.meetings = (true, g.meetings) := by
    rw [is_meeting_running_of_lookup g.meetings sender r hr, hrun]
    rfl
  simp only [vemblouco, h1, if_true]

/-- Claim C6, witness: opening on the fixture running meeting replies
"already running" and returns the state unchanged. -/
theorem c6_witness :
    vemblouco 100 "bob" "#c" (some "T2") "/logs" "http://x" "." true true true
        true gFix =
      (gFix, { said := [("Já tem um Blouco ativo!", none)] }, none) :=
  c6_claim 100 "bob" "#c" (some "T2") "/logs" "http://x" "." true true true
    true gFix rFix (by decide) rfl

/-! ### Claim C1 -/

/-- Claim C1 (code bug): the side-note handler never consults the named
target channel.  With an active meeting in "#c", a private message
`.ow #c hello` from Alice (so `trigger.sender` is the submitter nick
"Alice", `group(2)` is "#c hello" and `group(3)` is "#c") replies "Não tem
Blouco aqui." and appends nothing to "#c"'s side notes, although the claim
requires the pair ("Alice", "hello") to be appended there; the handler
checks `is_meeting_running(trigger.sender)` and, when it does append, stores
the full argument text including the channel token. -/
theorem c1_claim :
    (take_ow "Alice" "Alice" (some "#c hello") (some "#c") "." gFix).2.1.said =
        [("Não tem Blouco aqui.", none)] ∧
      lookupCh (take_ow "Alice" "Alice" (some "#c hello") (some "#c") "."
          gFix).1.meetings "#c" = some rFix ∧
      rFix.ows = some [] := by
  refine ⟨rfl, rfl, rfl⟩

/-! ### Claim C2 -/

/-- Claim C2, counterexample.  A close-meeting invocation by the owner on
the fixture running meeting in which the HTML closing step fails
(`htmlEndOk := false`): the handler raises before the reset and the
channel's meeting record is left intact, not replaced by an empty record. -/
theorem c2_counterexample :
    lookupCh (vaiblouco 120 "alice" "#c" false true (fun u => u)
        (fun _ => some "") (fun _ => "") gFix).1.meetings "#c" = some rFix ∧
      rFix ≠ emptyRec ∧
      (vaiblouco 120 "alice" "#c" false true (fun u => u) (fun _ => some "")
        (fun _ => "") gFix).2.2 = some Exc.ioError := by
  refine ⟨rfl, by decide, rfl⟩

/-- When both log-writing steps of the close succeed, the close of a
well-formed running meeting by a chair-or-owner resets the channel's record
to empty, leaves the two configuration variables alone, and either keeps the
vraus table (fetch failure or missing entry) or deletes the channel's vraus
entry — whatever the fetch outcome. -/
theorem vaiblouco_resets (now st : Nat) (nick sender t : String) (g : GState)
    (r : Rec) (quote : String → String) (fetch : String → Option String)
    (md5hex : String → String)
    (hr : lookupCh g.meetings sender = some r) (hrun : r.running = some true)
    (hch : chairBool nick r = true) (hst : r.start = some st)
    (hti : r.title = some t) :
    ∃ vr out exc,
      vaiblouco now nick sender true true quote fetch md5hex g =
        ({ meetings := setCh g.meetings sender emptyRec, vraus := vr,
           logPath := g.logPath, logBaseurl := g.logBaseurl }, out, exc) ∧
        (vr = g.vraus ∨ vr = delVraus g.vraus sender) := by
  have h1 : is_meeting_running sender g.meetings = (true, g.meetings) := by
    rw [is_meeting_running_of_lookup g.meetings sender r hr, hrun]
    rfl
  have h2 : is_chair nick sender g.meetings = (true, g.meetings) := by
    rw [is_chair_of_lookup g.meetings nick sender r hr, hch]
  have h3 : dictGet g.meetings sender = (r, g.meetings) :=
    dictGet_of_lookup _ _ _ hr
  have h4 := figure_logfile_name_of_lookup g.meetings sender r t st hr hti hst
  simp only [vaiblouco, h1, h2, h3, h4, hst, Bool.not_true, if_true, if_false,
    Bool.false_eq_true, ite_false, ite_true]
  split
  · exact ⟨g.vraus, _, _, rfl, Or.inl rfl⟩
  · split
    · exact ⟨g.vraus, _, _, rfl, Or.inl rfl⟩
    · exact ⟨delVraus g.vraus sender, _, _, rfl, Or.inr rfl⟩

/-- Claim C2, amended: a close-meeting invocation by an authorized user on
an active meeting replaces the channel's meeting state with an empty record
provided the two log-writing steps of the close (the HTML closing and the
final plain-text line) complete without error — whether or not the post-close
verification fetch succeeds.  If either log-writing step raises, the
exception propagates before the reset and the meeting state is left in
place (see the counterexample). -/
theorem c2_claim (now st : Nat) (nick sender t : String) (g : GState)
    (r : Rec) (quote : String → String) (fetch : String → Option String)
    (md5hex : String → String)
    (hr : lookupCh g.meetings sender = some r) (hrun : r.running = some true)
    (hch : chairBool nick r = true) (hst : r.start = some st)
    (hti : r.title = some t) :
    lookupCh (vaiblouco now nick sender true true quote fetch md5hex
        g).1.meetings sender = some emptyRec := by
  obtain ⟨vr, out, exc, heq, _⟩ :=
    vaiblouco_resets now st nick sender t g r quote fetch md5hex hr hrun hch hst hti
  rw [heq]
  exact lookupCh_setCh_self _ _ _

/-- Claim C2, witness: closing the fixture meeting with successful log
writes but a failing verification fetch still resets the record to empty. -/
theorem c2_witness :
    lookupCh (vaiblouco 120 "alice" "#c" true true (fun u => u)
        (fun _ => none) (fun _ => "") gFix).1.meetings "#c" = some emptyRec :=
  c2_claim 120 60 "alice" "#c" "T" gFix rFix (fun u => u) (fun _ => none)
    (fun _ => "") (by decide) rfl (by decide) rfl rfl

/-! ### Claim C7 -/

/-- Claim C7: on an active meeting with a non-empty argument, the set-chairs
command issued by a non-owner leaves the whole state (hence the chairs list)
unchanged and replies that only the owner may do this; issued by the owner
with argument "Alice Bob" it sets the chairs list to exactly
["alice", "bob"] and writes exactly one plain-text line and one HTML list
item, each containing "alice, bob". -/
theorem c7_claim (nick sender h arg pfx : String) (r : Rec) (g : GState)
    (hr : lookupCh g.meetings sender = some r) (hrun : r.running = some true)
    (hh : r.head = some h) (harg : arg ≠ "") :
    (pyLower nick ≠ h →
      puxam nick sender (some arg) pfx true true g =
        (g, { said := [("Somente a Porta-estandarte pode consagrar Puxadoras",
          none)] }, none)) ∧
    (pyLower nick = h → arg = "Alice Bob" →
      lookupCh (puxam nick sender (some arg) pfx true true g).1.meetings
          sender = some { r with puxam := some ["alice", "bob"] } ∧
        (puxam nick sender (some arg) pfx true true g).2.1.plain =
          ["Puxadoras: alice, bob"] ∧
        (puxam nick sender (some arg) pfx true true g).2.1.htmlItems =
          ["<span style=\x27font-weight: bold\x27>Puxadoras:</span> alice, bob"] ∧
        (puxam nick sender (some arg) pfx true true g).2.2 = none) := by
  have h1 : is_meeting_running sender g.meetings = (true, g.meetings) := by
    rw [is_meeting_running_of_lookup g.meetings sender r hr, hrun]
    rfl
  have h3 : dictGet g.meetings sender = (r, g.meetings) :=
    dictGet_of_lookup _ _ _ hr
  constructor
  · intro hne
    simp [puxam, h1, h3, hh, harg, hne]
  · intro he harg2
    subst harg2
    have hsplit : pySplitSpace (pyLower "Alice Bob") = ["alice", "bob"] := by
      decide
    have hrep : pyReplaceChar (pyLower "Alice Bob") ' ' ", " = "alice, bob" := by
      decide
    simp only [puxam, h1, h3, hh, he, hsplit, hrep]
    refine ⟨?_, ?_, ?_, ?_⟩ <;>
      simp [lookupCh_setCh_self, harg, hsplit, hrep]

/-- Claim C7, witness: a non-owner attempt on the fixture leaves the state
unchanged with the owner-only reply; the owner's "Alice Bob" sets the chair
list to ["alice", "bob"]. -/
theorem c7_witness :
    puxam "Bob" "#c" (some "Alice Bob") "." true true gFix =
        (gFix, { said := [("Somente a Porta-estandarte pode consagrar Puxadoras",
          none)] }, none) ∧
      lookupCh (puxam "ALICE" "#c" (some "Alice Bob") "." true true
          gFix).1.meetings "#c" = some { rFix with puxam := some ["alice", "bob"] } := by
  constructor
  · exact (c7_claim "Bob" "#c" "alice" "Alice Bob" "." rFix gFix (by decide)
      rfl rfl (by decide)).1 (by decide)
  · exact ((c7_claim "ALICE" "#c" "alice" "Alice Bob" "." rFix gFix
      (by decide) rfl rfl (by decide)).2 (by decide) rfl).1

/-! ### Claim C10 -/

/-- Claim C10: for every non-empty argument to the record-link command in
the success path, the logged URL equals the argument unchanged when the
argument begins with the four characters "http" (so non-URL strings such as
"httpfoo" also pass through untouched), and equals "http://" prepended to
the argument otherwise; the plain-text log line is
`LINK: <url> [<resolved title, empty on failure>]`. -/
theorem c10_claim (nick sender arg pfx : String)
    (ft : String → Option String) (r : Rec) (g : GState)
    (hr : lookupCh g.meetings sender = some r) (hrun : r.running = some true)
    (hch : chairBool nick r = true) (harg : arg ≠ "") :
    (pyStartsWith arg "http" = true →
      (meetinglink nick sender (some arg) pfx ft true true g).2.1.plain =
        ["LINK: " ++ arg ++ " [" ++ ((ft arg).getD "") ++ "]"]) ∧
    (pyStartsWith arg "http" = false →
      (meetinglink nick sender (some arg) pfx ft true true g).2.1.plain =
        ["LINK: " ++ ("http://" ++ arg) ++ " [" ++
          ((ft ("http://" ++ arg)).getD "") ++ "]"]) := by
  have h1 : is_meeting_running sender g.meetings = (true, g.meetings) := by
    rw [is_meeting_running_of_lookup g.meetings sender r hr, hrun]
    rfl
  have h2 : is_chair nick sender g.meetings = (true, g.meetings) := by
    rw [is_chair_of_lookup g.meetings nick sender r hr, hch]
  constructor
  · intro hs
    simp [meetinglink, h1, h2, harg, hs]
  · intro hs
    simp [meetinglink, h1, h2, harg, hs]

/-- Claim C10, witness: the three representative arguments on the fixture
meeting — a real URL, the non-URL "httpfoo" (passes through untouched), and
a bare host (gets the "http://" prepended). -/
theorem c10_witness :
    (meetinglink "alice" "#c" (some "https://example.com") "."
        (fun _ => some "E") true true gFix).2.1.plain =
        ["LINK: https://example.com [E]"] ∧
      (meetinglink "alice" "#c" (some "httpfoo") "." (fun _ => some "E")
        true true gFix).2.1.plain = ["LINK: httpfoo [E]"] ∧
      (meetinglink "alice" "#c" (some "example.com") "." (fun _ => some "E")
        true true gFix).2.1.plain = ["LINK: http://example.com [E]"] := by
  refine ⟨?_, ?_, ?_⟩
  · exact ((c10_claim "alice" "#c" "https://example.com" "."
      (fun _ => some "E") rFix gFix (by decide) rfl (by decide) (by decide)).1
      (by decide)).trans (by decide)
  · exact ((c10_claim "alice" "#c" "httpfoo" "." (fun _ => some "E") rFix
      gFix (by decide) rfl (by decide) (by decide)).1 (by decide)).trans
      (by decide)
  · exact ((c10_claim "alice" "#c" "example.com" "." (fun _ => some "E")
      rFix gFix (by decide) rfl (by decide) (by decide)).2 (by decide)).trans
      (by decide)

/-! ### Claim C8 -/

/-- With no meeting running in the channel (a present record with a falsy
running flag, e.g. a just-closed channel) and every oracle succeeding, the
open handler installs a record with the running flag set and an empty
action-item list for the channel, raising nothing. -/
theorem vemblouco_opens (now : Nat) (nick sender : String)
    (group2 : Option String) (cfgPath cfgBaseurl pfx : String) (g : GState)
    (r0 : Rec) (hl : lookupCh g.meetings sender = some r0)
    (hnr : r0.running.getD false = false) :
    ∃ rNew,
      lookupCh (vemblouco now nick sender group2 cfgPath cfgBaseurl pfx true
          true true true g).1.meetings sender = some rNew ∧
        rNew.running = some true ∧
        lookupVraus (vemblouco now nick sender group2 cfgPath cfgBaseurl pfx
          true true true true g).1.vraus sender = some [] ∧
        (vemblouco now nick sender group2 cfgPath cfgBaseurl pfx true true
          true true g).2.2 = none := by
  have h1 : is_meeting_running sender g.meetings = (false, g.meetings) := by
    rw [is_meeting_running_of_lookup g.meetings sender r0 hl, hnr]
  have h3 : dictGet g.meetings sender = (r0, g.meetings) :=
    dictGet_of_lookup _ _ _ hl
  refine ⟨{ r0 with
             start := some now,
             title := some (titleOf group2),
             head := some (pyLower nick),
             running := some true,
             ows := some ([] : List (String × String)) }, ?_, rfl, ?_, ?_⟩ <;>
    simp [vemblouco, h1, h3, lookupCh_setCh_self, lookupVraus_setVraus_self]

/-- On a running meeting with a present vraus entry, `.listvraus` replies
one bolded line per recorded item and changes nothing. -/
theorem listvraus_replays (sender : String) (g : GState) (r : Rec)
    (l : List String) (hr : lookupCh g.meetings sender = some r)
    (hrun : r.running = some true) (hv : lookupVraus g.vraus sender = some l) :
    listvraus sender g =
      (g, { said := l.map (fun v => (bold "vrau:" ++ " " ++ v, none)) },
        none) := by
  have h1 : is_meeting_running sender g.meetings = (true, g.meetings) := by
    rw [is_meeting_running_of_lookup g.meetings sender r hr, hrun]
    rfl
  simp [listvraus, h1, hv]

/-- Claim C8: on an active meeting (chair invoker, well-formed record,
vraus list `l`), (1) each successful record-action-item call appends exactly
the new entry at the end of the channel's in-memory list, (2) the
list-action-items command replies exactly one line per recorded entry,
reproducing each text, and mutates nothing, and (3) after a successful close
followed by a successful reopen the channel's list is empty, so a subsequent
list command replies nothing. -/
theorem c8_claim (nick sender t : String) (l : List String) (r : Rec)
    (g : GState) (pfx : String) (now2 : Nat) (nick2 : String)
    (group2 : Option String) (cfgPath cfgBaseurl pfx2 : String)
    (quote : String → String) (fetch : String → Option String)
    (md5hex : String → String) (st : Nat) (ti : String)
    (hr : lookupCh g.meetings sender = some r) (hrun : r.running = some true)
    (hch : chairBool nick r = true) (hv : lookupVraus g.vraus sender = some l)
    (harg : t ≠ "") (hst : r.start = some st) (hti : r.title = some ti) :
    (lookupVraus (meetingvrau nick sender (some t) pfx true true g).1.vraus
        sender = some (l ++ [t]) ∧
      (meetingvrau nick sender (some t) pfx true true g).2.2 = none) ∧
    listvraus sender g =
      (g, { said := l.map (fun v => (bold "vrau:" ++ " " ++ v, none)) },
        none) ∧
    (lookupVraus (vemblouco now2 nick2 sender group2 cfgPath cfgBaseurl pfx2
          true true true true
          (vaiblouco now2 nick sender true true quote fetch md5hex
            g).1).1.vraus sender = some [] ∧
      (listvraus sender (vemblouco now2 nick2 sender group2 cfgPath
          cfgBaseurl pfx2 true true true true
          (vaiblouco now2 nick sender true true quote fetch md5hex
            g).1).1).2.1.said = ([] : List (String × Option String))) := by
  have h1 : is_meeting_running sender g.meetings = (true, g.meetings) := by
    rw [is_meeting_running_of_lookup g.meetings sender r hr, hrun]
    rfl
  have h2 : is_chair nick sender g.meetings = (true, g.meetings) := by
    rw [is_chair_of_lookup g.meetings nick sender r hr, hch]
  refine ⟨⟨?_, ?_⟩, ?_, ?_⟩
  · simp [meetingvrau, h1, h2, harg, hv, lookupVraus_setVraus_self]
  · simp [meetingvrau, h1, h2, harg, hv]
  · exact listvraus_replays sender g r l hr hrun hv
  · obtain ⟨vr, out, exc, heq, _⟩ :=
      vaiblouco_resets now2 st nick sender ti g r quote fetch md5hex hr hrun
        hch hst hti
    rw [heq]
    have hl1 : lookupCh (setCh g.meetings sender emptyRec) sender =
        some emptyRec := lookupCh_setCh_self _ _ _
    obtain ⟨rNew, hlook, hrunNew, hvr, _⟩ :=
      vemblouco_opens now2 nick2 sender group2 cfgPath cfgBaseurl pfx2
        ⟨setCh g.meetings sender emptyRec, vr, g.logPath, g.logBaseurl⟩
        emptyRec hl1 rfl
    refine ⟨hvr, ?_⟩
    rw [listvraus_replays sender _ rNew [] hlook hrunNew hvr]
    rfl

/-- Claim C8, witness: the concrete lifecycle on the fixture meeting — one
append to the existing list, one replay reply per item, and an empty list
after close and reopen. -/
theorem c8_witness :
    (lookupVraus (meetingvrau "alice" "#c" (some "do it") "." true true
        gFix).1.vraus "#c" = some ["old", "do it"] ∧
      (meetingvrau "alice" "#c" (some "do it") "." true true gFix).2.2 =
        none) ∧
    listvraus "#c" gFix =
      (gFix,
       { said := ["old"].map (fun v => (bold "vrau:" ++ " " ++ v, none)) },
       none) ∧
    (lookupVraus (vemblouco 200 "carol" "#c" none "/l" "http://y" "." true
          true true true
          (vaiblouco 200 "alice" "#c" true true (fun u => u)
            (fun _ => some "b") (fun _ => "h") gFix).1).1.vraus "#c" =
        some [] ∧
      (listvraus "#c" (vemblouco 200 "carol" "#c" none "/l" "http://y" "."
          true true true true
          (vaiblouco 200 "alice" "#c" true true (fun u => u)
            (fun _ => some "b") (fun _ => "h") gFix).1).1).2.1.said =
        ([] : List (String × Option String))) :=
  c8_claim "alice" "#c" "do it" ["old"] rFix gFix "." 200 "carol" none "/l"
    "http://y" "." (fun u => u) (fun _ => some "b") (fun _ => "h") 60 "T"
    (by decide) rfl (by decide) (by decide) (by decide) rfl rfl

/-! ### Claim C9 -/

/-- The plain-log header line written by `.ows` is never equal to a
rendered side-note line: after the common bot prefix, one continues with
the letter L and the other with an angle bracket. -/
theorem owsHeader_ne_noteLine (b n m : String) :
    ("<" ++ b ++ "> Lista de Ows:" : String) ≠
      "<" ++ b ++ "> " ++ ("<" ++ n ++ "> " ++ m) := by
  intro hcontra
  have hd := congrArg String.data hcontra
  simp only [String.data_append, List.append_assoc] at hd
  have hd2 := List.append_cancel_left hd
  have hd3 := List.append_cancel_left hd2
  simp only [List.cons_append, List.nil_append, List.cons.injEq] at hd3
  exact absurd hd3.2.2.1 (by decide)

/-- A chair-or-owner `.ows` call on a meeting holding exactly one side note:
announces the header and the note, logs both as spoken by the bot, and
clears the list. -/
theorem show_ows_drain (nick sender botNick n m : String) (g : GState)
    (r : Rec) (hr : lookupCh g.meetings sender = some r)
    (hrun : r.running = some true) (hch : chairBool nick r = true)
    (hows : r.ows = some [(n, m)]) :
    show_ows nick sender botNick true g =
      ({ g with
          meetings := setCh g.meetings sender
            { r with ows := some ([] : List (String × String)) } },
       { said := [("Lista de Ows:", none), ("<" ++ n ++ "> " ++ m, none)],
         plain := ["<" ++ botNick ++ "> Lista de Ows:",
                   "<" ++ botNick ++ "> " ++ ("<" ++ n ++ "> " ++ m)] },
       none) := by
  have h1 : is_meeting_running sender g.meetings = (true, g.meetings) := by
    rw [is_meeting_running_of_lookup g.meetings sender r hr, hrun]
    rfl
  have h2 : is_chair nick sender g.meetings = (true, g.meetings) := by
    rw [is_chair_of_lookup g.meetings nick sender r hr, hch]
  have h3 : dictGet g.meetings sender = (r, g.meetings) :=
    dictGet_of_lookup _ _ _ hr
  simp [show_ows, h1, h2, h3, hows]

/-- A chair-or-owner `.ows` call on a meeting with an empty side-note list:
replies that there are none, writes nothing, changes nothing. -/
theorem show_ows_none (nick sender botNick : String) (g : GState) (r : Rec)
    (hr : lookupCh g.meetings sender = some r) (hrun : r.running = some true)
    (hch : chairBool nick r = true)
    (hows : r.ows = some ([] : List (String × String))) :
    show_ows nick sender botNick true g =
      (g, { said := [("Não tem Ows", none)] }, none) := by
  have h1 : is_meeting_running sender g.meetings = (true, g.meetings) := by
    rw [is_meeting_running_of_lookup g.meetings sender r hr, hrun]
    rfl
  have h2 : is_chair nick sender g.meetings = (true, g.meetings) := by
    rw [is_chair_of_lookup g.meetings nick sender r hr, hch]
  have h3 : dictGet g.meetings sender = (r, g.meetings) :=
    dictGet_of_lookup _ _ _ hr
  simp [show_ows, h1, h2, h3, hows]

/-- Claim C9: on an active meeting holding exactly one side note, a
show-side-notes call by a chair or the owner reports the note and clears the
list; an immediately following call reports that there are no side notes and
writes nothing; and the plain-text log receives exactly one line rendering
that note across both calls. -/
theorem c9_claim (nick sender botNick n m : String) (r : Rec) (g : GState)
    (hr : lookupCh g.meetings sender = some r) (hrun : r.running = some true)
    (hch : chairBool nick r = true) (hows : r.ows = some [(n, m)]) :
    (show_ows nick sender botNick true g).2.1.said =
        [("Lista de Ows:", none), ("<" ++ n ++ "> " ++ m, none)] ∧
      (show_ows nick sender botNick true g).2.1.plain =
        ["<" ++ botNick ++ "> Lista de Ows:",
         "<" ++ botNick ++ "> " ++ ("<" ++ n ++ "> " ++ m)] ∧
      lookupCh (show_ows nick sender botNick true g).1.meetings sender =
        some { r with ows := some ([] : List (String × String)) } ∧
      (show_ows nick sender botNick true
          (show_ows nick sender botNick true g).1).2.1.said =
        [("Não tem Ows", none)] ∧
      (show_ows nick sender botNick true
          (show_ows nick sender botNick true g).1).2.1.plain = [] ∧
      ((show_ows nick sender botNick true g).2.1.plain ++
          (show_ows nick sender botNick true
            (show_ows nick sender botNick true g).1).2.1.plain).count
        ("<" ++ botNick ++ "> " ++ ("<" ++ n ++ "> " ++ m)) = 1 := by
  have key1 := show_ows_drain nick sender botNick n m g r hr hrun hch hows
  have key2 := show_ows_none nick sender botNick
    { g with
        meetings := setCh g.meetings sender
          { r with ows := some ([] : List (String × String)) } }
    { r with ows := some ([] : List (String × String)) }
    (lookupCh_setCh_self _ _ _) hrun hch rfl
  have hne := owsHeader_ne_noteLine botNick n m
  have hne2 := Ne.symm hne
  refine ⟨?_, ?_, ?_, ?_, ?_, ?_⟩ <;>
    simp [key1, key2, lookupCh_setCh_self, List.count_cons, List.count_nil,
      beq_iff_eq, hne, hne2]

/-- The fixture meeting record holding exactly one side note, used by the
C9 witness. -/
def rec9 : Rec := { rFix with ows := some [("zeca", "oi")] }

/-- Fixture state for the C9 witness. -/
def g9 : GState :=
  { meetings := [("#c", rec9)], vraus := [("#c", [])],
    logPath := "", logBaseurl := "" }

/-- Claim C9, witness: on the fixture meeting with the single side note
("zeca", "oi"), the first call clears the list and the note is rendered
exactly once in the plain log across both calls. -/
theorem c9_witness :
    lookupCh (show_ows "alice" "#c" "bot" true g9).1.meetings "#c" =
        some { rec9 with ows := some ([] : List (String × String)) } ∧
      ((show_ows "alice" "#c" "bot" true g9).2.1.plain ++
          (show_ows "alice" "#c" "bot" true
            (show_ows "alice" "#c" "bot" true g9).1).2.1.plain).count
        ("<" ++ "bot" ++ "> " ++ ("<" ++ "zeca" ++ "> " ++ "oi")) = 1 := by
  have h := c9_claim "alice" "#c" "bot" "zeca" "oi" rec9 g9 (by decide) rfl
    (by decide) rfl
  exact ⟨h.2.2.1, h.2.2.2.2.2⟩

end Bloucobot
